import Mathlib

/-!
Verification of the VinFast Connected Car client
(`custom_components/vinfast`: `api.py`, `pairing.py`, `coordinator.py`).

The Python source is shallowly embedded: every network interaction is made
an explicit parameter (the response the `aiohttp` call would produce),
mutable object attributes become explicit state records that functions
take and return, and Python exceptions become `Except` values.  The
functions below are direct translations of the corresponding Python
functions; comments cite the source lines they embed.
-/

instance {ε α : Type} [DecidableEq ε] [DecidableEq α] : DecidableEq (Except ε α) := fun x y =>
  match x, y with
  | .ok a, .ok b => if h : a = b then isTrue (by rw [h]) else isFalse (by simp [h])
  | .error e, .error f => if h : e = f then isTrue (by rw [h]) else isFalse (by simp [h])
  | .ok _, .error _ => isFalse (by simp)
  | .error _, .ok _ => isFalse (by simp)

namespace VinFast

/-! ## Python exceptions

`VinFastAuthError` is a subclass of `VinFastApiError` in the source, so an
`except VinFastApiError` clause catches both; this is captured by
`PyExn.isVinFastApiError`.  `ValueError`, `aiohttp.ClientError`,
`AttributeError` and `asyncio.TimeoutError` are unrelated classes; in
particular `asyncio.TimeoutError` (raised when an `async_timeout` budget
expires) is NOT an `aiohttp.ClientError`. -/

inductive PyExn where
  | apiError (msg : String)        -- VinFastApiError
  | authError (msg : String)       -- VinFastAuthError (subclass of VinFastApiError)
  | pairingError (msg : String)    -- VinFastPairingError
  | valueError (msg : String)      -- builtins.ValueError
  | attributeError (msg : String)  -- builtins.AttributeError
  | clientError (msg : String)     -- aiohttp.ClientError
  | timeoutError                   -- asyncio.TimeoutError (raised by async_timeout)
  deriving DecidableEq, Repr

/-- Which exceptions an `except VinFastApiError` clause catches:
the class itself and its subclass `VinFastAuthError`. -/
def PyExn.isVinFastApiError : PyExn → Bool
  | .apiError _ => true
  | .authError _ => true
  | _ => false

/-- Which exceptions an `except aiohttp.ClientError` clause catches. -/
def PyExn.isClientError : PyExn → Bool
  | .clientError _ => true
  | _ => false

/-! ## Python string and number primitives

Decimal digits, `str(int)`, `int(str)`, `"%05d"` padding and
`str.split(sep)`, modelled on lists of characters.  Python `int()` also
accepts underscores between digits; that case is unreachable here because
every parsed segment comes from splitting on `"_"`, so it is not
modelled. -/

def digitToChar : Nat → Char
  | 0 => '0' | 1 => '1' | 2 => '2' | 3 => '3' | 4 => '4'
  | 5 => '5' | 6 => '6' | 7 => '7' | 8 => '8' | 9 => '9'
  | _ => '*'

def charToDigit? (c : Char) : Option Nat :=
  if c = '0' then some 0 else if c = '1' then some 1
  else if c = '2' then some 2 else if c = '3' then some 3
  else if c = '4' then some 4 else if c = '5' then some 5
  else if c = '6' then some 6 else if c = '7' then some 7
  else if c = '8' then some 8 else if c = '9' then some 9
  else none

def isDigitChar (c : Char) : Bool := (charToDigit? c).isSome

def charDigit (c : Char) : Nat := (charToDigit? c).getD 0

/-- Most-significant-digit-first decimal value of a character list. -/
def parseDigitChars (cs : List Char) : Nat :=
  cs.foldl (fun a c => 10 * a + charDigit c) 0

/-- Little-endian decimal digits, structurally recursive on a fuel bound
so that it evaluates inside the kernel (`Nat.digits` itself is defined by
well-founded recursion and does not reduce). -/
def natDigitsRev (fuel n : Nat) : List Nat :=
  match fuel with
  | 0 => []
  | fuel + 1 => if n = 0 then [] else n % 10 :: natDigitsRev fuel (n / 10)

/-- Embeds `str(n)` for a nonnegative integer: decimal digits, no leading zeros. -/
def natChars (n : Nat) : List Char :=
  if n = 0 then ['0'] else ((natDigitsRev n n).map digitToChar).reverse

def natStr (n : Nat) : String := String.mk (natChars n)

/-- Embeds `str(i)` for a Python int. -/
def intChars (i : Int) : List Char :=
  if i < 0 then '-' :: natChars i.natAbs else natChars i.toNat

/-- Python whitespace, as stripped by `int()` / `float()` / `str.strip()`. -/
def isPySpace (c : Char) : Bool :=
  c = ' ' ∨ c = '\t' ∨ c = '\n' ∨ c = '\r' ∨ c = '\x0b' ∨ c = '\x0c'

/-- Embeds `str.strip()` on a character list. -/
def pyStrip (cs : List Char) : List Char :=
  ((cs.dropWhile isPySpace).reverse.dropWhile isPySpace).reverse

/-- Embeds `str.strip(c)` for one explicit character (used as `path.strip("/")`). -/
def pyStripAll (c : Char) (cs : List Char) : List Char :=
  ((cs.dropWhile (· = c)).reverse.dropWhile (· = c)).reverse

/-- A nonempty all-digit run parsed as a natural number, `none` otherwise. -/
def pyNatDigits? (cs : List Char) : Option Nat :=
  if cs ≠ [] ∧ cs.all isDigitChar then some (parseDigitChars cs) else none

/-- Python `int(s)`: strip whitespace, optional sign, nonempty digits;
`none` models the `ValueError` raised on any other input. -/
def pyIntChars? (cs0 : List Char) : Option Int :=
  match pyStrip cs0 with
  | [] => none
  | c :: rest =>
    if c = '-' then (pyNatDigits? rest).map (fun n => -(n : Int))
    else if c = '+' then (pyNatDigits? rest).map (fun n => (n : Int))
    else (pyNatDigits? (c :: rest)).map (fun n => (n : Int))

def pyInt? (s : String) : Option Int := pyIntChars? s.data

/-- Python `str.split(sep)` with an explicit one-character separator:
splits at every occurrence, keeping empty segments. -/
def splitCh (sep : Char) : List Char → List (List Char)
  | [] => [[]]
  | c :: cs =>
    if c = sep then [] :: splitCh sep cs
    else
      match splitCh sep cs with
      | [] => [[c]]
      | p :: ps => (c :: p) :: ps

def pySplit (sep : Char) (s : String) : List String :=
  (splitCh sep s.data).map String.mk

/-- Embeds `f"{n:05d}"` for a nonnegative integer: pad with zeros to width 5. -/
def pad5 (n : Nat) : List Char :=
  List.replicate (5 - (natChars n).length) '0' ++ natChars n

/-! ## Python values and `float()`

Telemetry values arrive as JSON strings or numbers; exact rationals stand
in for Python floats (every value in scope is a short decimal literal, so
no rounding is involved).  `float()` on the strings `"inf"`/`"nan"` and
on literals containing underscores is not representable as a rational and
is treated as unparseable; no claim exercises those inputs. -/

inductive PyVal where
  | str (s : String)
  | num (q : Rat)
  deriving DecidableEq, Repr

/-- Python `float(s)`: optional whitespace and sign, a decimal mantissa
(digits, optionally with one point; at least one digit overall), and an
optional exponent.  `none` models the `ValueError`. -/
def pyFloatChars? (cs0 : List Char) : Option Rat :=
  let cs := pyStrip cs0
  let signAndRest : Int × List Char :=
    match cs with
    | '-' :: rest => (-1, rest)
    | '+' :: rest => (1, rest)
    | _ => (1, cs)
  let sgn := signAndRest.1
  let cs1 := signAndRest.2
  let notExpChar : Char → Bool := fun c => !(c = 'e' ∨ c = 'E')
  let mant := cs1.takeWhile notExpChar
  let expPart := cs1.dropWhile notExpChar
  let expVal? : Option Int :=
    match expPart with
    | [] => some 0
    | _ :: etail =>
      match etail with
      | '-' :: ds => (pyNatDigits? ds).map (fun n => -(n : Int))
      | '+' :: ds => (pyNatDigits? ds).map (fun n => (n : Int))
      | ds => (pyNatDigits? ds).map (fun n => (n : Int))
  let ip := mant.takeWhile (fun c => c ≠ '.')
  let dotAndFrac := mant.dropWhile (fun c => c ≠ '.')
  let frac? : Option (List Char) :=
    match dotAndFrac with
    | [] => some []
    | _ :: f => if f.all isDigitChar then some f else none
  match frac?, expVal? with
  | some frac, some e =>
    if ip.all isDigitChar ∧ (ip ≠ [] ∨ frac ≠ []) then
      let base : Int := (parseDigitChars ip * 10 ^ frac.length + parseDigitChars frac : Nat)
      let num : Int := sgn * base * (if 0 ≤ e then 10 ^ e.toNat else 1)
      let den : Nat := 10 ^ frac.length * (if 0 ≤ e then 1 else 10 ^ (-e).toNat)
      some (mkRat num den)
    else none
  | _, _ => none

def pyFloat? (s : String) : Option Rat := pyFloatChars? s.data

/-- ASCII `str.lower()`; every alias in scope is ASCII. -/
def lowerChar (c : Char) : Char :=
  if 'A' ≤ c ∧ c ≤ 'Z' then Char.ofNat (c.toNat + 32) else c

def pyLower (s : String) : String := String.mk (s.data.map lowerChar)

/-! ## Python dicts as association lists (insertion order preserved,
assignment to an existing key updates it in place, as in CPython). -/

def dictSet (k : String) (v : α) : List (String × α) → List (String × α)
  | [] => [(k, v)]
  | (k', v') :: rest => if k' = k then (k, v) :: rest else (k', v') :: dictSet k v rest

def dictGet? : List (String × α) → String → Option α
  | [], _ => none
  | (k', v) :: rest, k => if k' = k then some v else dictGet? rest k

/-! ## Telemetry decoder: `VinFastApi._parse_ping_response`
(`api.py` lines 409–505). -/

/-- The `alias_to_key` table of `_parse_ping_response` (`api.py` 433–471),
verbatim. -/
def alias_to_key : List (String × String) :=
  [("VEHICLE_STATUS_HV_BATTERY_SOC", "battery_level"),
   ("VEHICLE_STATUS_REMAINING_DISTANCE", "range"),
   ("VEHICLE_STATUS_ODOMETER", "odometer"),
   ("CHARGING_STATUS_CHARGING_STATUS", "charging_status"),
   ("CHARGING_STATUS_CHARGING_REMAINING_TIME", "time_to_full"),
   ("CHARGE_CONTROL_CURRENT_TARGET_SOC", "charge_limit"),
   ("CHARGE_CONTROL_SAMPLE_CHARGE_STATUS", "sample_charge_status"),
   ("VEHICLE_STATUS_IGNITION_STATUS", "ignition"),
   ("VEHICLE_STATUS_GEAR_POSITION", "gear"),
   ("VEHICLE_STATUS_VEHICLE_SPEED", "speed"),
   ("VEHICLE_STATUS_HANDBRAKE_STATUS", "handbrake"),
   ("VEHICLE_STATUS_AMBIENT_TEMPERATURE", "outside_temp"),
   ("CLIMATE_INFORMATION_DRIVER_TEMPERATURE", "inside_temp"),
   ("CLIMATE_INFORMATION_STATUS", "climate_status"),
   ("VEHICLE_STATUS_FRONT_LEFT_TIRE_PRESSURE", "tire_pressure_fl"),
   ("VEHICLE_STATUS_FRONT_RIGHT_TIRE_PRESSURE", "tire_pressure_fr"),
   ("VEHICLE_STATUS_REAR_LEFT_TIRE_PRESSURE", "tire_pressure_rl"),
   ("VEHICLE_STATUS_REAR_RIGHT_TIRE_PRESSURE", "tire_pressure_rr"),
   ("DOOR_AJAR_FRONT_LEFT_DOOR_STATUS", "door_fl"),
   ("DOOR_AJAR_FRONT_RIGHT_DOOR_STATUS", "door_fr"),
   ("DOOR_AJAR_REAR_LEFT_DOOR_STATUS", "door_rl"),
   ("DOOR_AJAR_REAR_RIGHT_DOOR_STATUS", "door_rr"),
   ("DOOR_TRUNK_DOOR_STATUS", "trunk_status"),
   ("REMOTE_CONTROL_DOOR_STATUS", "locked"),
   ("REMOTE_CONTROL_BONNET_CONTROL_STATUS", "hood_status"),
   ("REMOTE_CONTROL_WINDOW_STATUS", "window_status"),
   ("REMOTE_CONTROL_CHARGE_PORT_STATUS", "plugged_in"),
   ("LOCATION_LATITUDE", "latitude"),
   ("LOCATION_LONGITUDE", "longitude"),
   ("VEHICLE_BEARING_DEGREE", "heading")]

/-- Embeds `api.py` 482–490: split the device key on `"_"`; with exactly three
segments, parse each with `int()` (whose `ValueError` on a non-numeric
segment is NOT caught anywhere in `_parse_ping_response`) and rebuild
`f"/{obj_id}/{inst_id}/{rsrc_id}"`; otherwise keep the raw key. -/
def deviceKeyToPath (deviceKey : String) : Except PyExn String :=
  match pySplit '_' deviceKey with
  | [p0, p1, p2] =>
    match pyInt? p0 with
    | none => .error (.valueError ("invalid literal for int() with base 10: " ++ p0))
    | some o =>
      match pyInt? p1 with
      | none => .error (.valueError ("invalid literal for int() with base 10: " ++ p1))
      | some i =>
        match pyInt? p2 with
        | none => .error (.valueError ("invalid literal for int() with base 10: " ++ p2))
        | some r =>
          .ok (String.mk (('/' :: intChars o) ++ ('/' :: intChars i) ++ ('/' :: intChars r)))
  | _ => .ok deviceKey

/-- Embeds `api.py` 492–496: map the path to an alias via the reverse map (only
when that dict is truthy, i.e. nonempty), then to the fixed friendly key,
falling back to the lower-cased alias, or to the path itself. -/
def friendlyKey (pathToAlias : List (String × String)) (path : String) : String :=
  if pathToAlias ≠ [] then
    match dictGet? pathToAlias path with
    | some al => (dictGet? alias_to_key al).getD (pyLower al)
    | none => path
  else path

/-- Embeds `api.py` 498–502: `float(value)`, keeping the original on
`ValueError`/`TypeError`. -/
def coercePingValue : PyVal → PyVal
  | .str s => match pyFloat? s with
    | some q => .num q
    | none => .str s
  | .num q => .num q

/-- One element of the raw ping `data` list: either not a dict (skipped,
`api.py` 474–475) or a dict read through `item.get`. -/
inductive RawItem where
  | notDict
  | obj (deviceKey : Option String) (value : Option PyVal)

/-- The loop of `_parse_ping_response` (`api.py` 473–502).  An item is
processed only when `device_key` is truthy (present and nonempty) and
`value is not None`; a `ValueError` escaping from `int()` aborts the
whole loop. -/
def parsePingItems (pathToAlias : List (String × String)) :
    List RawItem → List (String × PyVal) → Except PyExn (List (String × PyVal))
  | [], result => .ok result
  | .notDict :: rest, result => parsePingItems pathToAlias rest result
  | .obj dk v :: rest, result =>
    match dk, v with
    | some k, some val =>
      if k ≠ "" then
        match deviceKeyToPath k with
        | .error e => .error e
        | .ok path =>
          parsePingItems pathToAlias rest
            (dictSet (friendlyKey pathToAlias path) (coercePingValue val) result)
      else parsePingItems pathToAlias rest result
    | _, _ => parsePingItems pathToAlias rest result

/-- The raw `data` payload handed to `_parse_ping_response`.  A non-list
payload (`api.py` 428–430) yields an empty result; `truthy` records how
the value would test under `if not raw_data:` in `get_telemetry`. -/
inductive RawData where
  | notList (truthy : Bool)
  | items (l : List RawItem)

/-- Embeds `VinFastApi._parse_ping_response` (`api.py` 409–505). -/
def parse_ping_response (raw : RawData) (pathToAlias : List (String × String)) :
    Except PyExn (List (String × PyVal)) :=
  match raw with
  | .notList _ => .ok []
  | .items l => parsePingItems pathToAlias l []

/-! ## `VinFastApi` session state (`api.py` 103–114)

The mutable attributes of the client object.  Alias mappings keep only
the fields the source stores per alias. -/

/-- One entry of `self._alias_mappings` (`api.py` 309–317). -/
structure AliasInfo where
  path : String
  objectId : String
  instanceId : String
  resourceId : String
  name : String
  units : String
  rsrcType : String  -- the "type" key of the Python dict
  deriving DecidableEq, Repr

structure ApiClientState where
  accessToken : Option String
  refreshToken : Option String
  userId : Option String
  vin : Option String
  aliasMappings : List (String × AliasInfo)
  aliasVersion : Option String
  deriving DecidableEq, Repr

/-- Embeds `VinFastApi.__init__`: everything starts unset. -/
def initialApiState : ApiClientState :=
  { accessToken := none, refreshToken := none, userId := none, vin := none,
    aliasMappings := [], aliasVersion := none }

/-! ## Token refresh: `VinFastApi.refresh_auth` (`api.py` 165–189) -/

/-- What the refresh-grant POST would produce, were it sent. -/
inductive RefreshExchange where
  | status200 (accessToken : String) (refreshToken : Option String)
  | statusOther (status : Nat)
  | exn (msg : String)   -- any exception: caught, logged, returns False
  deriving DecidableEq, Repr

/-- Embeds `refresh_auth`: returns `false` without any network call when no
refresh token is held; on a 200 replaces the access token and, when the
response carries one, the refresh token; returns `false` on any other
status or exception.  The `Nat` component counts refresh-grant HTTP
exchanges actually attempted. -/
def refresh_auth (st : ApiClientState) (exch : RefreshExchange) :
    Bool × ApiClientState × Nat :=
  match st.refreshToken with
  | none => (false, st, 0)
  | some rt =>
    match exch with
    | .status200 tok newRt =>
      (true, { st with accessToken := some tok, refreshToken := some (newRt.getD rt) }, 1)
    | .statusOther _ => (false, st, 1)
    | .exn _ => (false, st, 1)

/-! ## Response handling: `VinFastApi._handle_response` (`api.py` 234–249) -/

/-- An HTTP response as `_handle_response` inspects it: status, error
text, and the `code`/`message` fields of the decoded JSON envelope. -/
structure HttpResp where
  status : Nat
  text : String
  code : Option Int
  message : Option String
  deriving DecidableEq, Repr

/-- Embeds `_handle_response`.  On 401 it calls `refresh_auth()` exactly once:
success is surfaced as `VinFastApiError "Token refreshed, retry request"`
(the request is NOT re-sent — the function has no way to send one),
failure as `VinFastAuthError "Authentication expired"`.  On any other
non-200 status it raises `VinFastApiError "API error {status}: {text}"`;
on 200 it accepts application codes 0 and 200000 and raises
`VinFastApiError "API error: {message}"` otherwise.  The `Nat` component
counts calls to `refresh_auth`. -/
def handle_response (st : ApiClientState) (exch : RefreshExchange) (resp : HttpResp) :
    Except PyExn HttpResp × ApiClientState × Nat :=
  if resp.status = 401 then
    match refresh_auth st exch with
    | (true, st', _) => (.error (.apiError "Token refreshed, retry request"), st', 1)
    | (false, st', _) => (.error (.authError "Authentication expired"), st', 1)
  else if resp.status ≠ 200 then
    (.error (.apiError ("API error " ++ natStr resp.status ++ ": " ++ resp.text)), st, 0)
  else if resp.code = some 0 ∨ resp.code = some 200000 then
    (.ok resp, st, 0)
  else
    (.error (.apiError ("API error: " ++ resp.message.getD "Unknown error")), st, 0)

/-! ## Vehicle listing: `VinFastApi.get_vehicles` (`api.py` 251–260) -/

/-- A vehicle entry, reduced to the two fields `get_vehicles` reads
(`vehicles[0].get("vinCode")`, `vehicles[0].get("userId")`). -/
structure Vehicle where
  vinCode : Option String
  userId : Option String
  deriving DecidableEq, Repr

/-- Embeds `get_vehicles`, parameterised by the outcome of the underlying
`_api_request` (`data.get("data", [])` already extracted).  Whenever the
returned list is nonempty, `_vin` and `_user_id` are (re)assigned from
its FIRST element — on every call, not only the first. -/
def get_vehicles (st : ApiClientState) (resp : Except PyExn (List Vehicle)) :
    Except PyExn (List Vehicle) × ApiClientState :=
  match resp with
  | .error e => (.error e, st)
  | .ok [] => (.ok [], st)
  | .ok (v :: vs) =>
    (.ok (v :: vs), { st with vin := v.vinCode, userId := v.userId })

/-! ## Alias resolver: `VinFastApi.get_alias_mappings` (`api.py` 262–333) -/

/-- One entry of the alias catalogue, read through `resource.get`. -/
structure AliasResource where
  aliasName : Option String  -- the "alias" key
  devObjID : Option String
  devObjInstID : Option String
  devRsrcID : Option String
  name : Option String
  units : Option String
  rsrcType : Option String  -- the "type" key
  deriving DecidableEq, Repr

/-- The `"data"` field of a dict-shaped alias response.  When it holds a
list or any other non-dict value, `data.get("data", {}).get("resources", [])`
(`api.py` 288) raises `AttributeError` — which also makes the
`isinstance(data.get("data"), list)` branch at line 290 unreachable. -/
inductive AliasDataField where
  | dictVal (resources : Option (List AliasResource))
  | listVal (rs : List AliasResource)
  | otherVal
  | absent
  deriving Repr

/-- The decoded JSON of the get-alias response. -/
inductive AliasJson where
  | jsonList (rs : List AliasResource)
  | jsonDict (dataField : AliasDataField) (resources : Option (List AliasResource))
  | otherJson
  deriving Repr

/-- Embeds `api.py` 285–296: pick the resource list out of the tolerated
response shapes. -/
def extractAliasResources : AliasJson → Except PyExn (List AliasResource)
  | .jsonList rs => .ok rs
  | .jsonDict df topRes =>
    match df with
    | .dictVal rs =>
      let r1 := rs.getD []
      if r1 ≠ [] then .ok r1 else .ok (topRes.getD [])
    | .absent => .ok (topRes.getD [])
    | .listVal _ => .error (.attributeError "list object has no attribute get")
    | .otherVal => .error (.attributeError "object has no attribute get")
  | .otherJson => .ok []

/-- Embeds `api.py` 298–317: build the alias → info dict, skipping entries whose
`alias` is missing or empty, defaulting instance and resource ids to
`"0"`, and deriving `path = f"/{obj_id}/{inst_id}/{rsrc_id}"`. -/
def buildMappings : List AliasResource → List (String × AliasInfo) → List (String × AliasInfo)
  | [], m => m
  | res :: rest, m =>
    match res.aliasName with
    | some al =>
      if al ≠ "" then
        let objId := res.devObjID.getD ""
        let instId := res.devObjInstID.getD "0"
        let rsrcId := res.devRsrcID.getD "0"
        let info : AliasInfo :=
          { path := "/" ++ objId ++ "/" ++ instId ++ "/" ++ rsrcId,
            objectId := objId, instanceId := instId, resourceId := rsrcId,
            name := res.name.getD "", units := res.units.getD "",
            rsrcType := res.rsrcType.getD "" }
        buildMappings rest (dictSet al info m)
      else buildMappings rest m
    | none => buildMappings rest m

/-- What the get-alias GET would produce, were it sent. -/
inductive AliasFetch where
  | httpResp (status : Nat) (json : AliasJson)
  | exn (msg : String)   -- ClientError or any other exception while fetching
  deriving Repr

/-- Embeds `get_alias_mappings`.  A cached mapping for the same version is
returned without fetching; otherwise one fetch happens and the cache is
updated only when the parsed mapping is nonempty.  All exceptions
(including the `AttributeError` from a list-valued `"data"` field) are
caught by `except (aiohttp.ClientError, Exception)` and turn into an
empty result.  The `Nat` component counts fetches attempted. -/
def get_alias_mappings (st : ApiClientState) (version : String) (fetch : AliasFetch) :
    List (String × AliasInfo) × ApiClientState × Nat :=
  if st.aliasMappings ≠ [] ∧ st.aliasVersion = some version then
    (st.aliasMappings, st, 0)
  else
    match fetch with
    | .exn _ => ([], st, 1)
    | .httpResp status d =>
      if status ≠ 200 then ([], st, 1)
      else
        match extractAliasResources d with
        | .error _ => ([], st, 1)
        | .ok resources =>
          let mappings := buildMappings resources []
          if mappings ≠ [] then
            (mappings, { st with aliasMappings := mappings, aliasVersion := some version }, 1)
          else (mappings, st, 1)

/-! ## Telemetry fetch: `VinFastApi.get_telemetry` (`api.py` 342–407) -/

/-- The ordered list of wanted aliases (`api.py` 21–59), verbatim. -/
def TELEMETRY_ALIASES : List String :=
  ["VEHICLE_STATUS_HV_BATTERY_SOC",
   "VEHICLE_STATUS_REMAINING_DISTANCE",
   "VEHICLE_STATUS_ODOMETER",
   "CHARGING_STATUS_CHARGING_STATUS",
   "CHARGING_STATUS_CHARGING_REMAINING_TIME",
   "CHARGE_CONTROL_CURRENT_TARGET_SOC",
   "CHARGE_CONTROL_SAMPLE_CHARGE_STATUS",
   "VEHICLE_STATUS_IGNITION_STATUS",
   "VEHICLE_STATUS_GEAR_POSITION",
   "VEHICLE_STATUS_VEHICLE_SPEED",
   "VEHICLE_STATUS_HANDBRAKE_STATUS",
   "VEHICLE_STATUS_AMBIENT_TEMPERATURE",
   "CLIMATE_INFORMATION_DRIVER_TEMPERATURE",
   "CLIMATE_INFORMATION_STATUS",
   "VEHICLE_STATUS_FRONT_LEFT_TIRE_PRESSURE",
   "VEHICLE_STATUS_FRONT_RIGHT_TIRE_PRESSURE",
   "VEHICLE_STATUS_REAR_LEFT_TIRE_PRESSURE",
   "VEHICLE_STATUS_REAR_RIGHT_TIRE_PRESSURE",
   "DOOR_AJAR_FRONT_LEFT_DOOR_STATUS",
   "DOOR_AJAR_FRONT_RIGHT_DOOR_STATUS",
   "DOOR_AJAR_REAR_LEFT_DOOR_STATUS",
   "DOOR_AJAR_REAR_RIGHT_DOOR_STATUS",
   "DOOR_TRUNK_DOOR_STATUS",
   "REMOTE_CONTROL_DOOR_STATUS",
   "REMOTE_CONTROL_BONNET_CONTROL_STATUS",
   "REMOTE_CONTROL_WINDOW_STATUS",
   "REMOTE_CONTROL_CHARGE_PORT_STATUS",
   "LOCATION_LATITUDE",
   "LOCATION_LONGITUDE",
   "VEHICLE_BEARING_DEGREE"]

/-- The fallback static resource paths (`api.py` 63–92), verbatim. -/
def FALLBACK_TELEMETRY_RESOURCES : List String :=
  ["/34196/0/0", "/34196/0/1", "/34197/0/0", "/34197/0/1", "/34197/0/2",
   "/34193/0/0", "/34200/0/0", "/34200/0/1", "/34201/0/0", "/34202/0/0",
   "/34189/0/0", "/34190/0/0", "/34191/0/0", "/34192/0/0", "/34194/0/0",
   "/34195/0/0", "/34198/0/0", "/34199/0/0", "/34203/0/0", "/34204/0/0",
   "/34205/0/0", "/34206/0/0", "/34207/0/0", "/34208/0/0", "/34209/0/0",
   "/34210/0/0"]

/-- A `{"objectId": ..., "instanceId": ..., "resourceId": ...}` request
entry. -/
structure RequestObject where
  objectId : String
  instanceId : String
  resourceId : String
  deriving DecidableEq, Repr

/-- Embeds `api.py` 357–369: one request object per wanted alias present in the
mapping, in `TELEMETRY_ALIASES` order, recording `path → alias`. -/
def buildDynamicRequest (mappings : List (String × AliasInfo)) :
    List RequestObject × List (String × String) :=
  TELEMETRY_ALIASES.foldl
    (fun acc al =>
      match dictGet? mappings al with
      | some m =>
        (acc.1 ++ [{ objectId := m.objectId, instanceId := m.instanceId,
                     resourceId := m.resourceId }],
         dictSet m.path al acc.2)
      | none => acc)
    ([], [])

/-- Embeds `api.py` 370–380: fall back to the static paths, parsed into the same
triple shape; no reverse alias map exists in this mode. -/
def buildFallbackRequest : List RequestObject :=
  FALLBACK_TELEMETRY_RESOURCES.foldl
    (fun acc p =>
      match splitCh '/' (pyStripAll '/' p.data) with
      | [a, b, c] => acc ++ [{ objectId := String.mk a, instanceId := String.mk b,
                               resourceId := String.mk c }]
      | _ => acc)
    []

/-- Embeds `get_telemetry`.  Returns `none` when the VIN is falsy, when no
request objects could be built, when the ping envelope has a falsy
`data`, or when the ping request fails with a `VinFastApiError` (the only
class its `except` clause catches — any other exception, e.g. the
decoder's `ValueError`, propagates).  `pingResult` is the outcome of the
`_api_request` POST, already reduced to its `data.get("data")` field. -/
def get_telemetry (st0 : ApiClientState) (aliasFetch : AliasFetch)
    (pingResult : Except PyExn (Option RawData)) :
    Except PyExn (Option (List (String × PyVal))) × ApiClientState :=
  if st0.vin = none ∨ st0.vin = some "" then (.ok none, st0)
  else
    let fetched := get_alias_mappings st0 "1.0" aliasFetch
    let aliasMappings := fetched.1
    let st1 := fetched.2.1
    let reqAndMap : List RequestObject × List (String × String) :=
      if aliasMappings ≠ [] then buildDynamicRequest aliasMappings
      else (buildFallbackRequest, [])
    if reqAndMap.1 = [] then (.ok none, st1)
    else
      match pingResult with
      | .error e => if e.isVinFastApiError then (.ok none, st1) else (.error e, st1)
      | .ok none => (.ok none, st1)
      | .ok (some raw) =>
        if (match raw with
            | .notList t => !t
            | .items l => l.isEmpty) then (.ok none, st1)
        else
          match parse_ping_response raw reqAndMap.2 with
          | .error e => (.error e, st1)
          | .ok snap => (.ok (some snap), st1)

/-! ## Saved locations: `VinFastApi.get_locations` (`api.py` 507–515) -/

/-- Embeds `get_locations`: catches `VinFastApiError` into an empty list. -/
def get_locations (resp : Except PyExn (List PyVal)) : Except PyExn (List PyVal) :=
  match resp with
  | .error e => if e.isVinFastApiError then .ok [] else .error e
  | .ok l => .ok l

/-! ## Aggregate fetch: `VinFastApi.get_all_data` (`api.py` 517–546) -/

structure AggregateData where
  vehicles : List Vehicle
  profile : List (String × PyVal)
  telemetry : Option (List (String × PyVal))
  locations : List PyVal
  deriving DecidableEq, Repr

/-- One `try/except VinFastApiError` clause of `get_all_data`: a caught
failure leaves the field at its initial default. -/
def catchApiErr (dflt : α) : Except PyExn α → Except PyExn α
  | .ok a => .ok a
  | .error e => if e.isVinFastApiError then .ok dflt else .error e

/-- The recovery `get_all_data` applies per sub-fetch: the fetched value
on success, the field's initial default on a caught error. -/
def recoverD (dflt : α) : Except PyExn α → α
  | .ok a => a
  | .error _ => dflt

/-- Embeds `get_all_data`: the four sub-fetches run in sequence, each wrapped in
its own `except VinFastApiError` clause; defaults are `[]`, `{}`, `None`,
`[]`.  An exception of any other class escapes the whole aggregate at the
point it occurs. -/
def get_all_data (st : ApiClientState)
    (vehiclesResp : Except PyExn (List Vehicle))
    (profileResp : Except PyExn (List (String × PyVal)))
    (aliasFetch : AliasFetch)
    (pingResult : Except PyExn (Option RawData))
    (locationsResp : Except PyExn (List PyVal)) :
    Except PyExn AggregateData × ApiClientState :=
  let fetchedVehicles := get_vehicles st vehiclesResp
  let st1 := fetchedVehicles.2
  match catchApiErr ([] : List Vehicle) fetchedVehicles.1 with
  | .error e => (.error e, st1)
  | .ok vs =>
    match catchApiErr ([] : List (String × PyVal)) profileResp with
    | .error e => (.error e, st1)
    | .ok prof =>
      let fetchedTelemetry := get_telemetry st1 aliasFetch pingResult
      let st2 := fetchedTelemetry.2
      match catchApiErr (none : Option (List (String × PyVal))) fetchedTelemetry.1 with
      | .error e => (.error e, st2)
      | .ok tel =>
        match catchApiErr ([] : List PyVal) (get_locations locationsResp) with
        | .error e => (.error e, st2)
        | .ok locs =>
          (.ok { vehicles := vs, profile := prof, telemetry := tel, locations := locs }, st2)

/-! ## Pairing: QR parsing and validation
(`VinFastPairing.parse_qr_code` / `validate_qr_for_vehicle`,
`pairing.py` 57–95). -/

/-- Base64 alphabet value of a character. -/
def b64CharVal? (c : Char) : Option Nat :=
  if 'A' ≤ c ∧ c ≤ 'Z' then some (c.toNat - 65)
  else if 'a' ≤ c ∧ c ≤ 'z' then some (c.toNat - 97 + 26)
  else if '0' ≤ c ∧ c ≤ '9' then some (c.toNat - 48 + 52)
  else if c = '+' then some 62
  else if c = '/' then some 63
  else none

/-- Decode base64 in groups of four characters, allowing `=` padding only
at the very end; `none` models `binascii.Error`. -/
def b64DecodeGroups : List Char → Option (List Nat)
  | [] => some []
  | a :: b :: c :: d :: rest =>
    match b64CharVal? a, b64CharVal? b with
    | some va, some vb =>
      if c = '=' ∧ d = '=' ∧ rest = [] then some [va * 4 + vb / 16]
      else
        match b64CharVal? c with
        | some vc =>
          if d = '=' ∧ rest = [] then some [va * 4 + vb / 16, (vb % 16) * 16 + vc / 4]
          else
            match b64CharVal? d with
            | some vd =>
              (b64DecodeGroups rest).map
                (fun t => (va * 4 + vb / 16) :: ((vb % 16) * 16 + vc / 4) ::
                  ((vc % 4) * 64 + vd) :: t)
            | none => none
        | none => none
    | _, _ => none
  | _ => none

/-- Python `base64.b64decode` with the default `validate=False`: discard
characters outside the alphabet (keeping `=`), then decode; a length that
is not a multiple of four raises `binascii.Error` (a `ValueError`). -/
def pyB64Decode? (s : String) : Option (List Nat) :=
  b64DecodeGroups (s.data.filter (fun c => (b64CharVal? c).isSome || c = '='))

/-- Embeds `bytes.decode("utf-8")`, modelled for ASCII payloads only: every
profile id in scope is ASCII, and the decoded value is compared and then
discarded, so multi-byte sequences are treated as decode failures. -/
def utf8Decode? (bytes : List Nat) : Option String :=
  if bytes.all (· < 128) then some (String.mk (bytes.map Char.ofNat)) else none

/-- The body of the advisory `try` block of `validate_qr_for_vehicle`
(`pairing.py` 88–91): decode the base64 profile id, decode UTF-8, compare
with the expected user id, raising `VinFastPairingError` on mismatch.
Every one of these outcomes is swallowed by `except Exception: pass`. -/
def profileIdCheck (profileIdB64 : String) (expectedUserId : String) : Except PyExn Unit :=
  match pyB64Decode? profileIdB64 with
  | none => .error (.valueError "binascii.Error: invalid base64-encoded string")
  | some bytes =>
    match utf8Decode? bytes with
    | none => .error (.valueError "UnicodeDecodeError")
    | some decoded =>
      if decoded ≠ expectedUserId then .error (.pairingError "QR profile doesn't match user")
      else .ok ()

/-- Embeds `validate_qr_for_vehicle` (`pairing.py` 79–95).  Fails only on a VIN
mismatch.  The profile-id comparison runs inside `try ... except
Exception: pass`, so even the `VinFastPairingError` raised on a mismatch
at line 91 is swallowed; the advisory value below is computed and
discarded, exactly as in the source. -/
def validate_qr_for_vehicle (qr_params : List (String × String)) (expected_vin : String)
    (expected_user_id : Option String) : Except PyExn Bool :=
  let qr_vin := (dictGet? qr_params "vin").getD ""
  if qr_vin ≠ expected_vin then
    .error (.pairingError
      ("QR VIN (" ++ qr_vin ++ ") doesn't match vehicle VIN (" ++ expected_vin ++ ")"))
  else
    let advisory : Except PyExn Unit :=
      match dictGet? qr_params "profileId", expected_user_id with
      | some pid, some euid => if pid ≠ "" ∧ euid ≠ "" then profileIdCheck pid euid else .ok ()
      | _, _ => .ok ()
    match advisory with
    | _ => .ok true

/-- Embeds `parse_qr_code` (`pairing.py` 57–77): split on `&`, then once on `=`,
stripping keys and values; fail when the content is empty or a required
key is absent.  (The source formats the missing-key list into the error
message; only the exception class matters here.) -/
def parse_qr_code (qr_content : String) : Except PyExn (List (String × String)) :=
  if qr_content = "" then .error (.pairingError "Empty QR code content")
  else
    let params := (splitCh '&' qr_content.data).foldl
      (fun acc pairCs =>
        if '=' ∈ pairCs then
          let key := pairCs.takeWhile (· ≠ '=')
          let value := (pairCs.dropWhile (· ≠ '=')).drop 1
          dictSet (String.mk (pyStrip key)) (String.mk (pyStrip value)) acc
        else acc)
      []
    let required := ["K", "ssid", "vin", "timeout"]
    let missing := required.filter (fun k => (dictGet? params k).isNone)
    if missing ≠ [] then .error (.pairingError "QR code missing required fields")
    else .ok params

/-! ## Command signing: `VinFastPairing.sign_command` (`pairing.py` 285–334)

Byte strings produced by the cryptographic primitives are represented
symbolically as a free term algebra: `sha256`, `hmacSha256` and the RSA
signature are injective constructors (the standard symbolic idealisation
— collisions are assumed away), while everything the source does around
them (what is concatenated, what is signed, what lands in which payload
field) is modelled exactly. -/

inductive CryptoBytes where
  | utf8 (s : String)                               -- `s.encode("utf-8")`
  | concat (a b : CryptoBytes)                      -- `a + b`
  | sha256 (m : CryptoBytes)                        -- `hashlib.sha256(m).digest()`
  | hmacSha256 (key m : CryptoBytes)                -- `hmac.new(key, m, sha256).digest()`
  | rsaPkcs1v15Sha256 (privateKey : Nat) (m : CryptoBytes)
      -- `private_key.sign(m, PKCS1v15, SHA256)`; the Nat identifies the key object
  | b64bytes (m : CryptoBytes)                      -- `base64.b64encode(m)` (and its text)
  deriving DecidableEq, Repr

/-- A JSON value as passed in `message_content`: the dict is flat and its
values are scalars at every call site (`{"deviceKey": str, "value": int}`),
which is all `json.dumps` needs to cover here. -/
inductive JsonAtom where
  | str (s : String)
  | num (i : Int)
  | bool (b : Bool)
  | null
  deriving DecidableEq, Repr

/-- The escapes `json.dumps` applies inside string literals (quote,
backslash, common controls; other control characters do not occur in
scope). -/
def jsonEscapeChar (c : Char) : List Char :=
  if c = '"' then ['\\', '"']
  else if c = '\\' then ['\\', '\\']
  else if c = '\n' then ['\\', 'n']
  else if c = '\t' then ['\\', 't']
  else if c = '\r' then ['\\', 'r']
  else [c]

def jsonString (s : String) : String :=
  "\"" ++ String.mk (s.data.foldr (fun c acc => jsonEscapeChar c ++ acc) []) ++ "\""

def jsonAtomDumps : JsonAtom → String
  | .str s => jsonString s
  | .num i => String.mk (intChars i)
  | .bool true => "true"
  | .bool false => "false"
  | .null => "null"

/-- Embeds `json.dumps(message_content, separators=(",", ":"))` for a flat dict:
compact separators, insertion order. -/
def jsonDumpsFlat : List (String × JsonAtom) → String
  | [] => "\x7b\x7d"
  | kv :: rest =>
    "\x7b" ++ jsonString kv.1 ++ ":" ++ jsonAtomDumps kv.2 ++
      (rest.foldl (fun acc p => acc ++ "," ++ jsonString p.1 ++ ":" ++ jsonAtomDumps p.2) "")
      ++ "\x7d"

/-- The mutable attributes of `VinFastPairing` that signing uses
(`pairing.py` 40–50); the private key object is identified by an opaque
handle. -/
structure PairingState where
  privateKey : Option Nat
  privateKeyPem : Option String
  sharedKey : Option CryptoBytes
  sharedKeyB64 : Option String
  sessionId : Option String
  isPaired : Bool
  deriving DecidableEq, Repr

/-- The signed request payload (`pairing.py` 323–334), field for field.
Base64-valued fields hold the `CryptoBytes` whose base64 text they carry. -/
structure SignedCommand where
  message_name : String
  message_content : CryptoBytes
  sess_id : String
  timestamp : String
  signature : CryptoBytes
  tag : Option String
  user_id : CryptoBytes
  isMasterProfile : Bool
  signature2 : CryptoBytes
  wakeUpTimeOut : Nat
  deriving DecidableEq, Repr

/-- Embeds `sign_command`.  `nowMs` is the value of `int(time.time() * 1000)`
read fresh at the call.  Requires both the private key and the shared
key; serialises `message_content` compactly, base64-encodes it, signs
`timestamp_bytes + message_b64_bytes` with RSA-PKCS1v15-SHA256 and again
with HMAC-SHA256, and hashes the user id with SHA-256. -/
def sign_command (ps : PairingState) (nowMs : Nat) (message_name : String)
    (message_content : List (String × JsonAtom)) (user_id : String) (session_id : String) :
    Except PyExn SignedCommand :=
  match ps.privateKey, ps.sharedKey with
  | some pk, some sk =>
    let timestamp := natStr nowMs
    let message_content_json := jsonDumpsFlat message_content
    let message_content_b64 := CryptoBytes.b64bytes (.utf8 message_content_json)
    let data_to_sign := CryptoBytes.concat (.utf8 timestamp) message_content_b64
    .ok {
      message_name := message_name,
      message_content := message_content_b64,
      sess_id := session_id,
      timestamp := timestamp,
      signature := .b64bytes (.rsaPkcs1v15Sha256 pk data_to_sign),
      tag := none,
      user_id := .b64bytes (.sha256 (.utf8 user_id)),
      isMasterProfile := true,
      signature2 := .b64bytes (.hmacSha256 sk data_to_sign),
      wakeUpTimeOut := 60000 }
  | _, _ => .error (.pairingError "Not paired - cannot sign commands")

/-! ## Command dispatch: `VinFastPairing.send_command` (`pairing.py` 336–381) -/

/-- What the command POST would produce, were it sent.  `jsonDecodes`
records whether `response.json()` would succeed on a 200 (its
`ContentTypeError` is an `aiohttp.ClientError`, hence caught). -/
inductive HttpOutcome where
  | resp (status : Nat) (bodyText : String) (jsonDecodes : Bool)
  | clientError (msg : String)
  | timeout
  deriving DecidableEq, Repr

/-- Embeds `send_command`: builds `{"deviceKey": ..., "value": ...}`, signs it,
POSTs.  Returns `true` on a 200 whose body decodes; `false` on any other
status or on `aiohttp.ClientError`.  The `except` clause catches ONLY
`aiohttp.ClientError`, so the `asyncio.TimeoutError` raised when the
60-second `async_timeout` budget expires propagates — as does the
`VinFastPairingError` from signing while unpaired. -/
def send_command (ps : PairingState) (nowMs : Nat) (message_name device_key : String)
    (value : JsonAtom) (user_id session_id : String) (outcome : HttpOutcome) :
    Except PyExn Bool :=
  match sign_command ps nowMs message_name
      [("deviceKey", .str device_key), ("value", value)] user_id session_id with
  | .error e => .error e
  | .ok _ =>
    match outcome with
    | .resp status _ jsonDecodes =>
      if status = 200 then
        if jsonDecodes then .ok true else .ok false
      else .ok false
    | .clientError _ => .ok false
    | .timeout => .error .timeoutError

/-! ## Adaptive poll controller
(`VinFastDataUpdateCoordinator`, `coordinator.py` 128–162,
constants from `const.py`). -/

def UPDATE_INTERVAL_NORMAL : Nat := 14400
def UPDATE_INTERVAL_CHARGING : Nat := 300

/-- The coordinator state the charger listener mutates. -/
structure PollState where
  isOcppCharging : Bool
  updateInterval : Nat
  deriving DecidableEq, Repr

/-- Embeds `_update_polling_interval` (`coordinator.py` 152–162): pick the
interval from the charging flag, writing it only when it differs. -/
def update_polling_interval (st : PollState) : PollState :=
  let newInterval := if st.isOcppCharging then UPDATE_INTERVAL_CHARGING
                     else UPDATE_INTERVAL_NORMAL
  if st.updateInterval ≠ newInterval then { st with updateInterval := newInterval } else st

/-- A state-change event: `event.data.get("new_state")`, reduced to the
`.state` string (the old state is only logged). -/
structure ChargerEvent where
  newState : Option String
  deriving DecidableEq, Repr

/-- Embeds `_handle_charger_state_change` (`coordinator.py` 128–150).  Returns
the new state and whether `async_request_refresh` was scheduled: the flag
is recomputed by string equality against the configured charging state;
the interval is updated only when the flag changed; the refresh fires
only on the false-to-true transition. -/
def handle_charger_state_change (ocppChargingState : String) (st : PollState)
    (ev : ChargerEvent) : PollState × Bool :=
  match ev.newState with
  | none => (st, false)
  | some s =>
    let wasCharging := st.isOcppCharging
    let isCharging := s == ocppChargingState
    let st1 := { st with isOcppCharging := isCharging }
    if wasCharging ≠ isCharging then
      (update_polling_interval st1, isCharging)
    else (st1, false)

/-! # Theorems

First the lemmas about the Python primitives, then one theorem per
specification claim (with witnesses and counterexamples where needed). -/

theorem charToDigit?_digitToChar {d : Nat} (hd : d < 10) :
    charToDigit? (digitToChar d) = some d := by
  interval_cases d <;> rfl

theorem natDigitsRev_eq_digits {fuel n : Nat} (h : n ≤ fuel) :
    natDigitsRev fuel n = Nat.digits 10 n := by
  induction fuel generalizing n with
  | zero => interval_cases n; simp [natDigitsRev]
  | succ m ih =>
    unfold natDigitsRev
    by_cases hn : n = 0
    · simp [hn]
    · rw [if_neg hn, ih (by omega), Nat.digits_def' (by norm_num) (Nat.pos_of_ne_zero hn)]

theorem natChars_eq (n : Nat) :
    natChars n = if n = 0 then ['0'] else ((Nat.digits 10 n).map digitToChar).reverse := by
  unfold natChars
  by_cases hn : n = 0
  · rw [if_pos hn, if_pos hn]
  · rw [if_neg hn, if_neg hn, natDigitsRev_eq_digits (Nat.le_refl n)]

theorem isDigitChar_iff {c : Char} :
    isDigitChar c = true ↔
      c = '0' ∨ c = '1' ∨ c = '2' ∨ c = '3' ∨ c = '4' ∨
      c = '5' ∨ c = '6' ∨ c = '7' ∨ c = '8' ∨ c = '9' := by
  unfold isDigitChar charToDigit?
  split_ifs <;> simp_all

theorem mem_natChars_isDigit {n : Nat} {c : Char} (hc : c ∈ natChars n) :
    isDigitChar c = true := by
  rw [natChars_eq] at hc
  split at hc
  · simp at hc; subst hc; rfl
  · rw [List.mem_reverse, List.mem_map] at hc
    obtain ⟨d, hd, rfl⟩ := hc
    have hlt : d < 10 := Nat.digits_lt_base (by norm_num) hd
    unfold isDigitChar
    rw [charToDigit?_digitToChar hlt]
    rfl

theorem natChars_ne_nil (n : Nat) : natChars n ≠ [] := by
  rw [natChars_eq]
  split
  · simp
  · simp [Nat.digits_ne_nil_iff_ne_zero, *]

theorem foldl_digits_reverse (L : List Nat) (a : Nat) :
    L.reverse.foldl (fun x d => 10 * x + d) a
      = a * 10 ^ L.length + Nat.ofDigits 10 L := by
  induction L generalizing a with
  | nil => simp
  | cons d T ih =>
    rw [List.reverse_cons, List.foldl_append, ih]
    simp only [List.foldl_cons, List.foldl_nil, Nat.ofDigits_cons, List.length_cons]
    ring

theorem foldl_map_digitToChar (M : List Nat) (a : Nat) (hM : ∀ d ∈ M, d < 10) :
    (M.map digitToChar).foldl (fun x c => 10 * x + charDigit c) a
      = M.foldl (fun x d => 10 * x + d) a := by
  induction M generalizing a with
  | nil => rfl
  | cons d T ih =>
    simp only [List.map_cons, List.foldl_cons]
    rw [show charDigit (digitToChar d) = d by
      unfold charDigit; rw [charToDigit?_digitToChar (hM d (by simp))]; rfl]
    exact ih _ (fun x hx => hM x (by simp [hx]))

/-- Decoding the decimal representation gives back the number. -/
theorem parseDigitChars_natChars (n : Nat) : parseDigitChars (natChars n) = n := by
  rw [natChars_eq]
  unfold parseDigitChars
  split
  · simp_all [charDigit, charToDigit?]
  · rw [← List.map_reverse, foldl_map_digitToChar _ _
      (fun d hd => Nat.digits_lt_base (by norm_num) (List.mem_reverse.mp hd)),
      ← List.reverse_reverse (Nat.digits 10 n) ]
    rw [foldl_digits_reverse]
    simp [Nat.ofDigits_digits]

theorem natChars_injective : Function.Injective natChars := by
  intro m n h
  have := parseDigitChars_natChars m
  rw [h, parseDigitChars_natChars] at this
  exact this.symm

theorem natStr_injective : Function.Injective natStr := by
  intro m n h
  exact natChars_injective (congrArg String.data h)

theorem splitCh_cons (sep c : Char) (cs : List Char) :
    splitCh sep (c :: cs) =
      if c = sep then [] :: splitCh sep cs
      else
        match splitCh sep cs with
        | [] => [[c]]
        | p :: ps => (c :: p) :: ps := rfl

theorem splitCh_of_not_mem {sep : Char} {l : List Char} (h : sep ∉ l) :
    splitCh sep l = [l] := by
  induction l with
  | nil => rfl
  | cons c cs ih =>
    have hc : c ≠ sep := fun hc => h (by simp [hc])
    have hcs : sep ∉ cs := fun hm => h (by simp [hm])
    rw [splitCh_cons, if_neg hc, ih hcs]

theorem splitCh_append_sep {sep : Char} {l r : List Char} (h : sep ∉ l) :
    splitCh sep (l ++ sep :: r) = l :: splitCh sep r := by
  induction l with
  | nil =>
    show splitCh sep (sep :: r) = [] :: splitCh sep r
    rw [splitCh_cons, if_pos rfl]
  | cons c cs ih =>
    have hc : c ≠ sep := fun hc => h (by simp [hc])
    have hcs : sep ∉ cs := fun hm => h (by simp [hm])
    show splitCh sep (c :: (cs ++ sep :: r)) = (c :: cs) :: splitCh sep r
    rw [splitCh_cons, if_neg hc, ih hcs]

/-- Splitting `a ++ "_" ++ b ++ "_" ++ c` on `'_'` gives exactly the three
segments when none of them contains an underscore. -/
theorem splitCh_three {a b c : List Char}
    (ha : '_' ∉ a) (hb : '_' ∉ b) (hc : '_' ∉ c) :
    splitCh '_' (a ++ '_' :: (b ++ '_' :: c)) = [a, b, c] := by
  rw [splitCh_append_sep ha, splitCh_append_sep hb, splitCh_of_not_mem hc]

theorem all_digit_natChars (n : Nat) : (natChars n).all isDigitChar = true := by
  rw [List.all_eq_true]
  exact fun c hc => mem_natChars_isDigit hc

theorem all_digit_pad5 (n : Nat) : (pad5 n).all isDigitChar = true := by
  rw [List.all_eq_true]
  intro c hc
  rcases List.mem_append.mp hc with h | h
  · rw [List.eq_of_mem_replicate h]; rfl
  · exact mem_natChars_isDigit h

theorem not_underscore_of_digit {c : Char} (h : isDigitChar c = true) : c ≠ '_' := by
  rcases isDigitChar_iff.mp h with h' | h' | h' | h' | h' | h' | h' | h' | h' | h' <;>
    (subst h'; decide)

theorem not_mem_underscore_natChars (n : Nat) : '_' ∉ natChars n := by
  intro h
  exact not_underscore_of_digit (mem_natChars_isDigit h) rfl

theorem not_mem_underscore_pad5 (n : Nat) : '_' ∉ pad5 n := by
  intro h
  have := List.all_eq_true.mp (all_digit_pad5 n) _ h
  exact not_underscore_of_digit this rfl

theorem not_pySpace_of_digit {c : Char} (h : isDigitChar c = true) :
    isPySpace c = false := by
  rcases isDigitChar_iff.mp h with h' | h' | h' | h' | h' | h' | h' | h' | h' | h' <;>
    (subst h'; decide)

theorem dropWhile_eq_self_of_all_false {p : Char → Bool} {l : List Char}
    (h : ∀ c ∈ l, p c = false) : l.dropWhile p = l := by
  cases l with
  | nil => rfl
  | cons c cs =>
    rw [List.dropWhile_cons, if_neg]
    simp [h c (by simp)]

theorem pyStrip_of_all_digit {cs : List Char} (h : cs.all isDigitChar = true) :
    pyStrip cs = cs := by
  have hall := List.all_eq_true.mp h
  unfold pyStrip
  rw [dropWhile_eq_self_of_all_false (fun c hc => not_pySpace_of_digit (hall c hc)),
    dropWhile_eq_self_of_all_false
      (fun c hc => not_pySpace_of_digit (hall c (List.mem_reverse.mp hc))),
    List.reverse_reverse]

theorem parseDigitChars_replicate_zero (k : Nat) (cs : List Char) :
    parseDigitChars (List.replicate k '0' ++ cs) = parseDigitChars cs := by
  unfold parseDigitChars
  rw [List.foldl_append]
  congr 1
  induction k with
  | zero => rfl
  | succ m ih => rw [List.replicate_succ, List.foldl_cons]; exact ih

/-- Parsing the zero-padded form recovers the number. -/
theorem parseDigitChars_pad5 (n : Nat) : parseDigitChars (pad5 n) = n := by
  unfold pad5
  rw [parseDigitChars_replicate_zero, parseDigitChars_natChars]

theorem pyNatDigits?_of_all_digit {cs : List Char} (hne : cs ≠ [])
    (h : cs.all isDigitChar = true) :
    pyNatDigits? cs = some (parseDigitChars cs) := by
  unfold pyNatDigits?
  rw [if_pos ⟨hne, h⟩]

/-- Parsing with `int()` on an all-digit string (no sign, no whitespace). -/
theorem pyIntChars?_of_all_digit {cs : List Char} (hne : cs ≠ [])
    (h : cs.all isDigitChar = true) :
    pyIntChars? cs = some (parseDigitChars cs : Int) := by
  unfold pyIntChars?
  rw [pyStrip_of_all_digit h]
  cases cs with
  | nil => exact absurd rfl hne
  | cons c rest =>
    have hd : isDigitChar c = true := List.all_eq_true.mp h c (by simp)
    have h1 : c ≠ '-' := by
      rcases isDigitChar_iff.mp hd with h' | h' | h' | h' | h' | h' | h' | h' | h' | h' <;>
        (subst h'; decide)
    have h2 : c ≠ '+' := by
      rcases isDigitChar_iff.mp hd with h' | h' | h' | h' | h' | h' | h' | h' | h' | h' <;>
        (subst h'; decide)
    simp only [if_neg h1, if_neg h2]
    rw [pyNatDigits?_of_all_digit (List.cons_ne_nil c rest) h]
    rfl

theorem pyIntChars?_natChars (n : Nat) :
    pyIntChars? (natChars n) = some (n : Int) := by
  rw [pyIntChars?_of_all_digit (natChars_ne_nil n) (all_digit_natChars n),
    parseDigitChars_natChars]

theorem pyIntChars?_pad5 (n : Nat) :
    pyIntChars? (pad5 n) = some (n : Int) := by
  have hne : pad5 n ≠ [] := by
    unfold pad5
    intro h
    exact natChars_ne_nil n (List.append_eq_nil.mp h).2
  rw [pyIntChars?_of_all_digit hne (all_digit_pad5 n), parseDigitChars_pad5]

theorem intChars_ofNat (n : Nat) : intChars (n : Int) = natChars n := by
  unfold intChars
  rw [if_neg (by omega)]
  simp

/-- Decoding a zero-padded device key `{o}_{i:05d}_{r:05d}` rebuilds the
canonical path `/{o}/{i}/{r}`, with each segment rendered without leading
zeros (`natChars` produces the plain decimal form). -/
theorem deviceKeyToPath_padded (o i r : Nat) :
    deviceKeyToPath (String.mk (natChars o ++ '_' :: (pad5 i ++ '_' :: pad5 r)))
      = .ok (String.mk (('/' :: natChars o) ++ ('/' :: natChars i) ++ ('/' :: natChars r))) := by
  have hsplit : pySplit '_' (String.mk (natChars o ++ '_' :: (pad5 i ++ '_' :: pad5 r)))
      = [String.mk (natChars o), String.mk (pad5 i), String.mk (pad5 r)] := by
    show (splitCh '_' (natChars o ++ '_' :: (pad5 i ++ '_' :: pad5 r))).map String.mk = _
    rw [splitCh_three (not_mem_underscore_natChars o) (not_mem_underscore_pad5 i)
      (not_mem_underscore_pad5 r)]
    rfl
  unfold deviceKeyToPath
  simp only [hsplit]
  rw [show pyInt? (String.mk (natChars o)) = some ((o : Nat) : Int) from pyIntChars?_natChars o,
    show pyInt? (String.mk (pad5 i)) = some ((i : Nat) : Int) from pyIntChars?_pad5 i,
    show pyInt? (String.mk (pad5 r)) = some ((r : Nat) : Int) from pyIntChars?_pad5 r]
  simp only [intChars_ofNat]

/-! ### Helper lemmas for the claim theorems -/

theorem refresh_auth_preserves_identity (st : ApiClientState) (exch : RefreshExchange) :
    (refresh_auth st exch).2.1.vin = st.vin
    ∧ (refresh_auth st exch).2.1.userId = st.userId := by
  unfold refresh_auth
  cases h : st.refreshToken <;> cases exch <;> simp

theorem refresh_auth_false_of_no_token {st : ApiClientState} (h : st.refreshToken = none)
    (exch : RefreshExchange) : (refresh_auth st exch).1 = false := by
  unfold refresh_auth
  rw [h]

theorem api_error_text_ne_retry (s : String) :
    "API error " ++ s ≠ "Token refreshed, retry request" := by
  intro h
  have hd := congrArg String.data h
  rw [String.data_append] at hd
  simp at hd

theorem api_error_colon_ne_retry (s : String) :
    "API error: " ++ s ≠ "Token refreshed, retry request" := by
  intro h
  have hd := congrArg String.data h
  rw [String.data_append] at hd
  simp at hd

/-! ### Claim theorems -/

/-- C7: on each charger-state notification carrying a state string, the
handler recomputes `is_charging` by string equality against the
configured charging-state string; the polling interval changes only when
the flag changed (the 300-second charging period when now charging, the
14400-second normal period otherwise); the out-of-band refresh fires
exactly on the false-to-true transition (never on true-to-false, never
when unchanged); and a notification without a new state changes
nothing. -/
theorem charger_notification_behavior (cfg : String) (st : PollState) (s : String) :
    (handle_charger_state_change cfg st ⟨some s⟩).1.isOcppCharging = (s == cfg)
    ∧ (handle_charger_state_change cfg st ⟨some s⟩).2
        = (!st.isOcppCharging && (s == cfg))
    ∧ (handle_charger_state_change cfg st ⟨some s⟩).1.updateInterval
        = (if st.isOcppCharging = (s == cfg) then st.updateInterval
           else if (s == cfg) then UPDATE_INTERVAL_CHARGING else UPDATE_INTERVAL_NORMAL)
    ∧ handle_charger_state_change cfg st ⟨none⟩ = (st, false) := by
  unfold handle_charger_state_change update_polling_interval
  cases hb : st.isOcppCharging <;> cases hs : (s == cfg) <;>
    simp_all <;> split_ifs <;> simp_all

/-- C9: `validate_qr_for_vehicle` fails (with `VinFastPairingError`)
exactly when the QR `vin` differs from the expected VIN; a matching VIN
yields success for EVERY profile-id situation, because the whole advisory
check — including the mismatch error it raises internally — runs inside
`except Exception: pass`.  The closed conjuncts replay the spec scenario
(`K=abcd&ssid=S1&vin=VF1TEST&timeout=60` against `VF1TEST` and
`VF1OTHER`) and exhibit a profile id that fails base64 decoding and one
that decodes to a different user id, both tolerated. -/
theorem validate_qr_vin_only (params : List (String × String)) (evin : String)
    (euid : Option String) :
    validate_qr_for_vehicle params evin euid
      = (if (dictGet? params "vin").getD "" = evin then .ok true
         else .error (.pairingError ("QR VIN (" ++ (dictGet? params "vin").getD "" ++
           ") doesn't match vehicle VIN (" ++ evin ++ ")")))
    ∧ parse_qr_code "K=abcd&ssid=S1&vin=VF1TEST&timeout=60"
        = .ok [("K", "abcd"), ("ssid", "S1"), ("vin", "VF1TEST"), ("timeout", "60")]
    ∧ validate_qr_for_vehicle
        [("K", "abcd"), ("ssid", "S1"), ("vin", "VF1TEST"), ("timeout", "60")]
        "VF1TEST" none = .ok true
    ∧ validate_qr_for_vehicle
        [("K", "abcd"), ("ssid", "S1"), ("vin", "VF1TEST"), ("timeout", "60")]
        "VF1OTHER" none
        = .error (.pairingError "QR VIN (VF1TEST) doesn't match vehicle VIN (VF1OTHER)")
    ∧ validate_qr_for_vehicle [("vin", "VF1TEST"), ("profileId", "A")] "VF1TEST"
        (some "user1") = .ok true
    ∧ validate_qr_for_vehicle [("vin", "VF1TEST"), ("profileId", "b3RoZXI=")] "VF1TEST"
        (some "user1") = .ok true := by
  refine ⟨?_, by decide, by decide, by decide, by decide, by decide⟩
  by_cases h : (dictGet? params "vin").getD "" = evin
  · simp [validate_qr_for_vehicle, h]
  · simp [validate_qr_for_vehicle, h]

/-- C8 counterexample: the vehicle identity is NOT stable across later
vehicle-listing calls — a second listing whose first vehicle differs
overwrites the stored VIN (and user id). -/
theorem vehicle_identity_not_stable :
    (get_vehicles { initialApiState with vin := some "VF1AAA", userId := some "U1" }
        (.ok [{ vinCode := some "VF1BBB", userId := some "U2" }])).2.vin
      ≠ ({ initialApiState with vin := some "VF1AAA", userId := some "U1" } :
          ApiClientState).vin := by
  decide

/-- C8 amended: `get_vehicles` (re)assigns the VIN and user id from the
FIRST vehicle of EVERY nonempty listing response; an empty or failed
listing leaves them unchanged, and the other session operations
(`refresh_auth`, `_handle_response`, `get_alias_mappings`) never touch
them — so the identity is "first wins" only per call, stable between
listing calls rather than for the whole session. -/
theorem vehicle_identity_per_call (st : ApiClientState) (v : Vehicle)
    (vs : List Vehicle) (e : PyExn) (exch : RefreshExchange) (resp : HttpResp)
    (version : String) (fetch : AliasFetch) :
    get_vehicles st (.ok (v :: vs))
      = (.ok (v :: vs), { st with vin := v.vinCode, userId := v.userId })
    ∧ get_vehicles st (.ok []) = (.ok [], st)
    ∧ get_vehicles st (.error e) = (.error e, st)
    ∧ (refresh_auth st exch).2.1.vin = st.vin
    ∧ (refresh_auth st exch).2.1.userId = st.userId
    ∧ (handle_response st exch resp).2.1.vin = st.vin
    ∧ (handle_response st exch resp).2.1.userId = st.userId
    ∧ (get_alias_mappings st version fetch).2.1.vin = st.vin
    ∧ (get_alias_mappings st version fetch).2.1.userId = st.userId := by
  refine ⟨rfl, rfl, rfl, (refresh_auth_preserves_identity st exch).1,
    (refresh_auth_preserves_identity st exch).2, ?_, ?_, ?_, ?_⟩
  · unfold handle_response
    split_ifs <;> try rfl
    rcases hra : refresh_auth st exch with ⟨b, st', n⟩
    have := (refresh_auth_preserves_identity st exch).1
    rw [hra] at this
    cases b <;> simpa using this
  · unfold handle_response
    split_ifs <;> try rfl
    rcases hra : refresh_auth st exch with ⟨b, st', n⟩
    have := (refresh_auth_preserves_identity st exch).2
    rw [hra] at this
    cases b <;> simpa using this
  · unfold get_alias_mappings
    split_ifs with h
    · rfl
    · rcases fetch with ⟨status, d⟩ | msg
      · dsimp only
        split_ifs with hs
        · rfl
        · rcases hx : extractAliasResources d with e | rs
          · rfl
          · dsimp only
            split_ifs <;> rfl
      · rfl
  · unfold get_alias_mappings
    split_ifs with h
    · rfl
    · rcases fetch with ⟨status, d⟩ | msg
      · dsimp only
        split_ifs with hs
        · rfl
        · rcases hx : extractAliasResources d with e | rs
          · rfl
          · dsimp only
            split_ifs <;> rfl
      · rfl

theorem get_alias_mappings_cached (st : ApiClientState) (version : String)
    (f : AliasFetch) (hm : st.aliasMappings ≠ []) (hv : st.aliasVersion = some version) :
    get_alias_mappings st version f = (st.aliasMappings, st, 0) := by
  unfold get_alias_mappings
  rw [if_pos ⟨hm, hv⟩]

theorem get_alias_mappings_spec (st : ApiClientState) (version : String) (f : AliasFetch) :
    (get_alias_mappings st version f).2.2 ≤ 1
    ∧ ((get_alias_mappings st version f).1 ≠ [] →
       (get_alias_mappings st version f).2.1.aliasMappings
          = (get_alias_mappings st version f).1
       ∧ (get_alias_mappings st version f).2.1.aliasVersion = some version) := by
  unfold get_alias_mappings
  split_ifs with h
  · exact ⟨by simp, fun _ => ⟨rfl, h.2⟩⟩
  · rcases f with ⟨status, d⟩ | msg
    · dsimp only
      split_ifs with hs
      · exact ⟨by simp, by simp⟩
      · rcases hx : extractAliasResources d with e | rs
        · simp only [hx]
          exact ⟨by simp, by simp⟩
        · simp only [hx]
          split_ifs with hm
          · exact ⟨by simp, fun _ => ⟨rfl, rfl⟩⟩
          · exact ⟨by simp, fun hx2 => absurd (by simpa using not_not.mp hm) hx2⟩
    · exact ⟨by simp, by simp⟩

/-- C5 counterexample: two `resolve` calls with the same version and no
intervening invalidation can issue TWO network fetches — when the first
fetch fails (here HTTP 500), nothing is cached, so the second call
fetches again.  "At most one network fetch" is false as stated. -/
theorem resolve_refetches_after_failure :
    get_alias_mappings initialApiState "1.0" (.httpResp 500 .otherJson)
      = ([], initialApiState, 1)
    ∧ (get_alias_mappings initialApiState "1.0" (.httpResp 500 .otherJson)).2.2
        + (get_alias_mappings
            (get_alias_mappings initialApiState "1.0" (.httpResp 500 .otherJson)).2.1
            "1.0" (.httpResp 500 .otherJson)).2.2 = 2 := by
  constructor
  · rfl
  · rfl

/-- C5 amended: whenever a cached mapping exists for the requested
version the call returns it unchanged with no fetch; consequently, if the
FIRST call returns a nonempty mapping, the second same-version call
returns that mapping unchanged with zero fetches and the two calls issue
at most one fetch in total.  (When the first call returns an empty
mapping nothing is cached and the second call fetches again.) -/
theorem resolve_second_call_cached (st0 : ApiClientState) (version : String)
    (f1 f2 : AliasFetch) (h1 : (get_alias_mappings st0 version f1).1 ≠ []) :
    get_alias_mappings ((get_alias_mappings st0 version f1).2.1) version f2
      = ((get_alias_mappings st0 version f1).1,
         (get_alias_mappings st0 version f1).2.1, 0)
    ∧ (get_alias_mappings st0 version f1).2.2
        + (get_alias_mappings ((get_alias_mappings st0 version f1).2.1) version f2).2.2
      ≤ 1 := by
  obtain ⟨k3, k12⟩ := get_alias_mappings_spec st0 version f1
  obtain ⟨k1, k2⟩ := k12 h1
  have hne : (get_alias_mappings st0 version f1).2.1.aliasMappings ≠ [] := by
    rw [k1]; exact h1
  have second := get_alias_mappings_cached _ version f2 hne k2
  rw [k1] at second
  refine ⟨second, ?_⟩
  rw [second]
  simpa using k3

/-- C5 witness: a first call whose fetch succeeds populates the cache,
and the second call returns the cached mapping with no fetch. -/
theorem resolve_second_call_cached_witness :
    (get_alias_mappings initialApiState "1.0"
        (.httpResp 200 (.jsonList
          [{ aliasName := some "VEHICLE_STATUS_ODOMETER", devObjID := some "34183",
             devObjInstID := some "1", devRsrcID := some "3",
             name := none, units := none, rsrcType := none }]))).1 ≠ []
    ∧ get_alias_mappings
        ((get_alias_mappings initialApiState "1.0"
          (.httpResp 200 (.jsonList
            [{ aliasName := some "VEHICLE_STATUS_ODOMETER", devObjID := some "34183",
               devObjInstID := some "1", devRsrcID := some "3",
               name := none, units := none, rsrcType := none }]))).2.1)
        "1.0" (.exn "second fetch would fail")
      = ((get_alias_mappings initialApiState "1.0"
          (.httpResp 200 (.jsonList
            [{ aliasName := some "VEHICLE_STATUS_ODOMETER", devObjID := some "34183",
               devObjInstID := some "1", devRsrcID := some "3",
               name := none, units := none, rsrcType := none }]))).1,
         (get_alias_mappings initialApiState "1.0"
          (.httpResp 200 (.jsonList
            [{ aliasName := some "VEHICLE_STATUS_ODOMETER", devObjID := some "34183",
               devObjInstID := some "1", devRsrcID := some "3",
               name := none, units := none, rsrcType := none }]))).2.1, 0) := by
  refine ⟨by decide, ?_⟩
  exact (resolve_second_call_cached initialApiState "1.0" _ _ (by decide)).1

/-- C1: on an HTTP 401 the client calls `refresh_auth` exactly once; a
successful refresh surfaces the distinguished retry signal
`VinFastApiError "Token refreshed, retry request"` (and the request is
not re-sent — `_handle_response` returns an exception, not a response);
a failed refresh, in particular when no refresh token is held, raises
`VinFastAuthError "Authentication expired"`.  The retry signal never
arises from any non-401 response, and the `AuthExpired` outcome is a
`VinFastAuthError`, a different class from the plain `VinFastApiError`
used for protocol errors. -/
theorem handle_401_single_refresh (st : ApiClientState) (exch : RefreshExchange)
    (resp : HttpResp) (h401 : resp.status = 401) :
    (handle_response st exch resp).2.2 = 1
    ∧ ((refresh_auth st exch).1 = true →
        (handle_response st exch resp).1
          = .error (.apiError "Token refreshed, retry request"))
    ∧ ((refresh_auth st exch).1 = false →
        (handle_response st exch resp).1 = .error (.authError "Authentication expired"))
    ∧ (st.refreshToken = none →
        (handle_response st exch resp).1 = .error (.authError "Authentication expired"))
    ∧ (∀ (st2 : ApiClientState) (exch2 : RefreshExchange) (resp2 : HttpResp),
        resp2.status ≠ 401 →
        (handle_response st2 exch2 resp2).1
          ≠ .error (.apiError "Token refreshed, retry request"))
    ∧ (∀ m : String, (PyExn.authError "Authentication expired") ≠ .apiError m) := by
  have distinct : ∀ (st2 : ApiClientState) (exch2 : RefreshExchange) (resp2 : HttpResp),
      resp2.status ≠ 401 →
      (handle_response st2 exch2 resp2).1
        ≠ .error (.apiError "Token refreshed, retry request") := by
    intro st2 exch2 resp2 hne
    unfold handle_response
    rw [if_neg hne]
    split_ifs with h200 hcode
    · intro hcontra
      simp only [Except.error.injEq, PyExn.apiError.injEq] at hcontra
      exact api_error_text_ne_retry _ hcontra
    · simp
    · intro hcontra
      simp only [Except.error.injEq, PyExn.apiError.injEq] at hcontra
      exact api_error_colon_ne_retry _ hcontra
  have main : (handle_response st exch resp).2.2 = 1
      ∧ ((refresh_auth st exch).1 = true →
          (handle_response st exch resp).1
            = .error (.apiError "Token refreshed, retry request"))
      ∧ ((refresh_auth st exch).1 = false →
          (handle_response st exch resp).1
            = .error (.authError "Authentication expired")) := by
    unfold handle_response
    rw [if_pos h401]
    rcases hra : refresh_auth st exch with ⟨b, st2, n⟩
    cases b <;> simp [hra]
  refine ⟨main.1, main.2.1, main.2.2, ?_, distinct, by intro m h; cases h⟩
  intro hnone
  exact main.2.2 (refresh_auth_false_of_no_token hnone exch)

/-- C1 witness: a concrete 401 with a refresh token and a successful
refresh exchange yields one refresh call and the retry signal. -/
theorem handle_401_single_refresh_witness :
    (⟨401, "", none, none⟩ : HttpResp).status = 401
    ∧ (handle_response { initialApiState with refreshToken := some "r" }
        (.status200 "tok" none) ⟨401, "", none, none⟩).2.2 = 1
    ∧ (handle_response { initialApiState with refreshToken := some "r" }
        (.status200 "tok" none) ⟨401, "", none, none⟩).1
        = .error (.apiError "Token refreshed, retry request") := by
  have h := handle_401_single_refresh { initialApiState with refreshToken := some "r" }
    (.status200 "tok" none) ⟨401, "", none, none⟩ rfl
  exact ⟨rfl, h.1, h.2.1 (by decide)⟩

theorem get_vehicles_fst (st : ApiClientState) (vR : Except PyExn (List Vehicle)) :
    (get_vehicles st vR).1 = vR := by
  cases vR with
  | error e => rfl
  | ok l => cases l <;> rfl

theorem catchApiErr_ok {α : Type} {dflt : α} {r : Except PyExn α}
    (h : ∀ e, r = .error e → e.isVinFastApiError = true) :
    catchApiErr dflt r = .ok (recoverD dflt r) := by
  cases r with
  | ok a => rfl
  | error e => simp [catchApiErr, recoverD, h e rfl]

theorem get_locations_never_fails {lR : Except PyExn (List PyVal)}
    (hl : ∀ e, lR = .error e → PyExn.isVinFastApiError e = true) :
    ∀ e, get_locations lR = .error e → PyExn.isVinFastApiError e = true := by
  intro e h
  cases lR with
  | ok l => simp [get_locations] at h
  | error e2 => simp [get_locations, hl e2 rfl] at h

/-- C3: for every device key of the zero-padded form
`{o}_{i:05d}_{r:05d}` (every decimal triple, including `o=0,i=0,r=0`),
the decoder rebuilds the canonical path `/{o}/{i}/{r}` with no leading
zeros; and the raw item `{"deviceKey": "34196_00000_00000", "value":
"87"}` with reverse map `{"/34196/0/0": "VEHICLE_STATUS_HV_BATTERY_SOC"}`
decodes to `{"battery_level": 87.0}` — the numeric string coerced to
`float` and the alias mapped to its fixed friendly key. -/
theorem telemetry_device_key_decode (o i r : Nat) :
    deviceKeyToPath (String.mk (natChars o ++ '_' :: (pad5 i ++ '_' :: pad5 r)))
      = .ok (String.mk (('/' :: natChars o) ++ ('/' :: natChars i) ++ ('/' :: natChars r)))
    ∧ parse_ping_response (.items [.obj (some "34196_00000_00000") (some (.str "87"))])
        [("/34196/0/0", "VEHICLE_STATUS_HV_BATTERY_SOC")]
      = .ok [("battery_level", .num 87)] :=
  ⟨deviceKeyToPath_padded o i r, by decide⟩

/-- C4: with fixed message name, content, user id and session id, two
`sign_command` calls at distinct millisecond clock readings (the
timestamp is read fresh from the clock at each call) produce different
timestamps, different RSA signatures and different HMAC signatures —
both signatures cover the timestamp — while the base64 of the compact
JSON `message_content` and the `base64(SHA256(user_id))` hash are
identical across the two calls. -/
theorem sign_command_freshness (ps : PairingState) (pk : Nat) (sk : CryptoBytes)
    (hpk : ps.privateKey = some pk) (hsk : ps.sharedKey = some sk)
    (t1 t2 : Nat) (hne : t1 ≠ t2) (message_name : String)
    (content : List (String × JsonAtom)) (uid sid : String) :
    ∃ c1 c2 : SignedCommand,
      sign_command ps t1 message_name content uid sid = .ok c1
      ∧ sign_command ps t2 message_name content uid sid = .ok c2
      ∧ c1.timestamp ≠ c2.timestamp
      ∧ c1.signature ≠ c2.signature
      ∧ c1.signature2 ≠ c2.signature2
      ∧ c1.message_content = c2.message_content
      ∧ c1.user_id = c2.user_id := by
  have hts : natStr t1 ≠ natStr t2 := fun h => hne (natStr_injective h)
  have h1 : sign_command ps t1 message_name content uid sid = .ok
      { message_name := message_name,
        message_content := .b64bytes (.utf8 (jsonDumpsFlat content)),
        sess_id := sid,
        timestamp := natStr t1,
        signature := .b64bytes (.rsaPkcs1v15Sha256 pk
          (.concat (.utf8 (natStr t1)) (.b64bytes (.utf8 (jsonDumpsFlat content))))),
        tag := none,
        user_id := .b64bytes (.sha256 (.utf8 uid)),
        isMasterProfile := true,
        signature2 := .b64bytes (.hmacSha256 sk
          (.concat (.utf8 (natStr t1)) (.b64bytes (.utf8 (jsonDumpsFlat content))))),
        wakeUpTimeOut := 60000 } := by
    unfold sign_command
    rw [hpk, hsk]
  have h2 : sign_command ps t2 message_name content uid sid = .ok
      { message_name := message_name,
        message_content := .b64bytes (.utf8 (jsonDumpsFlat content)),
        sess_id := sid,
        timestamp := natStr t2,
        signature := .b64bytes (.rsaPkcs1v15Sha256 pk
          (.concat (.utf8 (natStr t2)) (.b64bytes (.utf8 (jsonDumpsFlat content))))),
        tag := none,
        user_id := .b64bytes (.sha256 (.utf8 uid)),
        isMasterProfile := true,
        signature2 := .b64bytes (.hmacSha256 sk
          (.concat (.utf8 (natStr t2)) (.b64bytes (.utf8 (jsonDumpsFlat content))))),
        wakeUpTimeOut := 60000 } := by
    unfold sign_command
    rw [hpk, hsk]
  refine ⟨_, _, h1, h2, ?_, ?_, ?_, rfl, rfl⟩
  · simpa using hts
  · simp [hts]
  · simp [hts]

/-- C4 witness: a concrete paired state and two consecutive millisecond
readings. -/
theorem sign_command_freshness_witness :
    ∃ c1 c2 : SignedCommand,
      sign_command
        { privateKey := some 1, privateKeyPem := some "PEM",
          sharedKey := some (.utf8 "sharedkey"), sharedKeyB64 := some "c2hhcmVka2V5",
          sessionId := some "S1", isPaired := true }
        1000 "RemoteControl_SetValue"
        [("deviceKey", .str "3416_0_5850"), ("value", .num 1)] "user1" "S1" = .ok c1
      ∧ sign_command
        { privateKey := some 1, privateKeyPem := some "PEM",
          sharedKey := some (.utf8 "sharedkey"), sharedKeyB64 := some "c2hhcmVka2V5",
          sessionId := some "S1", isPaired := true }
        1001 "RemoteControl_SetValue"
        [("deviceKey", .str "3416_0_5850"), ("value", .num 1)] "user1" "S1" = .ok c2
      ∧ c1.timestamp ≠ c2.timestamp
      ∧ c1.signature ≠ c2.signature
      ∧ c1.signature2 ≠ c2.signature2
      ∧ c1.message_content = c2.message_content
      ∧ c1.user_id = c2.user_id :=
  sign_command_freshness
    { privateKey := some 1, privateKeyPem := some "PEM",
      sharedKey := some (.utf8 "sharedkey"), sharedKeyB64 := some "c2hhcmVka2V5",
      sessionId := some "S1", isPaired := true }
    1 (.utf8 "sharedkey") rfl rfl 1000 1001 (by decide)
    "RemoteControl_SetValue" [("deviceKey", .str "3416_0_5850"), ("value", .num 1)]
    "user1" "S1"

/-- C6 counterexample: with a paired state, a timeout during the command
POST does not return false — the `asyncio.TimeoutError` raised when the
60-second `async_timeout` budget expires is not an `aiohttp.ClientError`,
so the `except` clause does not catch it and the call raises. -/
theorem send_command_timeout_raises :
    send_command
      { privateKey := some 1, privateKeyPem := some "PEM",
        sharedKey := some (.utf8 "sharedkey"), sharedKeyB64 := some "c2hhcmVka2V5",
        sessionId := some "S1", isPaired := true }
      1000 "RemoteControl_SetValue" "3415_0_5850" (.num 1) "user1" "S1" .timeout
      = .error .timeoutError
    ∧ (Except.error PyExn.timeoutError : Except PyExn Bool) ≠ .ok false := by
  exact ⟨rfl, by simp⟩

/-- C6 amended: with a paired state, `send_command` returns true exactly
when the response status is 200 and its body decodes as JSON; any other
status and any `aiohttp.ClientError` (including a JSON-decode failure of
a 200) return false; a timeout propagates `asyncio.TimeoutError` instead
of returning false. -/
theorem send_command_outcomes (ps : PairingState) (pk : Nat) (sk : CryptoBytes)
    (hpk : ps.privateKey = some pk) (hsk : ps.sharedKey = some sk)
    (nowMs : Nat) (message_name device_key : String) (value : JsonAtom)
    (uid sid : String) (status : Nat) (body : String) (jsonDecodes : Bool) (m : String) :
    send_command ps nowMs message_name device_key value uid sid
        (.resp status body jsonDecodes)
      = .ok (decide (status = 200) && jsonDecodes)
    ∧ send_command ps nowMs message_name device_key value uid sid (.clientError m)
        = .ok false
    ∧ send_command ps nowMs message_name device_key value uid sid .timeout
        = .error .timeoutError := by
  have hsign : ∃ c, sign_command ps nowMs message_name
      [("deviceKey", .str device_key), ("value", value)] uid sid = .ok c := by
    unfold sign_command
    rw [hpk, hsk]
    exact ⟨_, rfl⟩
  obtain ⟨c, hc⟩ := hsign
  unfold send_command
  rw [hc]
  refine ⟨?_, rfl, rfl⟩
  by_cases h200 : status = 200
  · subst h200
    cases jsonDecodes <;> simp
  · simp [h200]

/-- C6 witness: concrete outcomes — 200 with a JSON body gives true, 503
gives false, a timeout raises. -/
theorem send_command_outcomes_witness :
    send_command
      { privateKey := some 1, privateKeyPem := some "PEM",
        sharedKey := some (.utf8 "sharedkey"), sharedKeyB64 := some "c2hhcmVka2V5",
        sessionId := some "S1", isPaired := true }
      1000 "RemoteControl_SetValue" "3415_0_5850" (.num 1) "user1" "S1"
      (.resp 200 "" true) = .ok true
    ∧ send_command
      { privateKey := some 1, privateKeyPem := some "PEM",
        sharedKey := some (.utf8 "sharedkey"), sharedKeyB64 := some "c2hhcmVka2V5",
        sessionId := some "S1", isPaired := true }
      1000 "RemoteControl_SetValue" "3415_0_5850" (.num 1) "user1" "S1"
      (.resp 503 "busy" true) = .ok false := by
  constructor
  · have h := send_command_outcomes
      { privateKey := some 1, privateKeyPem := some "PEM",
        sharedKey := some (.utf8 "sharedkey"), sharedKeyB64 := some "c2hhcmVka2V5",
        sessionId := some "S1", isPaired := true }
      1 (.utf8 "sharedkey") rfl rfl 1000 "RemoteControl_SetValue" "3415_0_5850"
      (.num 1) "user1" "S1" 200 "" true "unused"
    simpa using h.1
  · have h := send_command_outcomes
      { privateKey := some 1, privateKeyPem := some "PEM",
        sharedKey := some (.utf8 "sharedkey"), sharedKeyB64 := some "c2hhcmVka2V5",
        sessionId := some "S1", isPaired := true }
      1 (.utf8 "sharedkey") rfl rfl 1000 "RemoteControl_SetValue" "3415_0_5850"
      (.num 1) "user1" "S1" 503 "busy" true "unused"
    simpa using h.1

/-- C2 counterexample: a sub-fetch failure outside the `VinFastApiError`
class aborts the whole aggregate instead of being caught — here a
timeout in the profile sub-fetch escapes `get_all_data`. -/
theorem get_all_data_aborted_by_timeout :
    (get_all_data initialApiState (.ok []) (.error .timeoutError)
        (.exn "no alias") (.ok none) (.ok [])).1
      = .error .timeoutError := by
  rfl

/-- C2 amended: the four sub-fetches run in sequence and every failure of
class `VinFastApiError` (the class the HTTP/envelope layer raises) is
caught independently, the aggregate keeping that field's default —
failures of any other class abort the aggregate.  Each aggregate field
equals its own sub-fetch's recovery, independent of the other three; in
particular a telemetry failure with vehicles and profile succeeding
yields `telemetry = none` beside populated `vehicles`/`profile`. -/
theorem get_all_data_best_effort (st : ApiClientState)
    (vR : Except PyExn (List Vehicle)) (pR : Except PyExn (List (String × PyVal)))
    (aliasFetch : AliasFetch) (pingR : Except PyExn (Option RawData))
    (lR : Except PyExn (List PyVal))
    (hv : ∀ e, vR = .error e → e.isVinFastApiError = true)
    (hp : ∀ e, pR = .error e → e.isVinFastApiError = true)
    (ht : ∀ e, (get_telemetry (get_vehicles st vR).2 aliasFetch pingR).1 = .error e →
        e.isVinFastApiError = true)
    (hl : ∀ e, lR = .error e → e.isVinFastApiError = true) :
    (get_all_data st vR pR aliasFetch pingR lR).1
      = .ok { vehicles := recoverD [] vR,
              profile := recoverD [] pR,
              telemetry :=
                recoverD none (get_telemetry (get_vehicles st vR).2 aliasFetch pingR).1,
              locations := recoverD [] (get_locations lR) } := by
  unfold get_all_data
  dsimp only
  rw [get_vehicles_fst st vR, catchApiErr_ok hv, catchApiErr_ok hp,
    catchApiErr_ok ht, catchApiErr_ok (get_locations_never_fails hl)]

/-- C2 witness: the telemetry ping fails with a `VinFastApiError` while
vehicles and profile succeed — the aggregate is returned with
`telemetry = none` and `vehicles`/`profile` populated. -/
theorem get_all_data_best_effort_witness :
    (get_all_data { initialApiState with vin := some "VF1TEST" }
        (.ok [{ vinCode := some "VF1TEST", userId := some "U1" }])
        (.ok [("name", .str "Owner")])
        (.exn "alias catalogue down")
        (.error (.apiError "ping endpoint down"))
        (.ok [])).1
      = .ok { vehicles := [{ vinCode := some "VF1TEST", userId := some "U1" }],
              profile := [("name", .str "Owner")],
              telemetry := none,
              locations := [] } := by
  have h := get_all_data_best_effort { initialApiState with vin := some "VF1TEST" }
    (.ok [{ vinCode := some "VF1TEST", userId := some "U1" }])
    (.ok [("name", .str "Owner")])
    (.exn "alias catalogue down")
    (.error (.apiError "ping endpoint down"))
    (.ok [])
    (fun e h => by cases h) (fun e h => by cases h)
    (fun e h => by
      rw [show (get_telemetry
          (get_vehicles { initialApiState with vin := some "VF1TEST" }
            (.ok [{ vinCode := some "VF1TEST", userId := some "U1" }])).2
          (.exn "alias catalogue down")
          (.error (.apiError "ping endpoint down"))).1
        = Except.ok none from by decide] at h
      cases h)
    (fun e h => by cases h)
  rw [h]
  decide

/-- C10: a raw telemetry item whose device key splits into three segments
of which one is not decimal (here `"ab_cd_ef"`) makes the decoder raise
`ValueError` from `int()` — aborting the whole snapshot even when other
items are well-formed — and that `ValueError` is not a `VinFastApiError`,
so it escapes both `get_telemetry` and `get_all_data`, whose `except`
clauses name only `VinFastApiError`. -/
theorem malformed_device_key_aborts :
    parse_ping_response (.items
        [.obj (some "34196_00000_00000") (some (.str "87")),
         .obj (some "ab_cd_ef") (some (.str "1"))]) []
      = .error (.valueError "invalid literal for int() with base 10: ab")
    ∧ (get_telemetry { initialApiState with vin := some "VF1TEST" } (.exn "alias down")
        (.ok (some (.items [.obj (some "ab_cd_ef") (some (.str "1"))])))).1
      = .error (.valueError "invalid literal for int() with base 10: ab")
    ∧ (get_all_data { initialApiState with vin := some "VF1TEST" }
        (.ok [{ vinCode := some "VF1TEST", userId := some "U1" }])
        (.ok []) (.exn "alias down")
        (.ok (some (.items [.obj (some "ab_cd_ef") (some (.str "1"))])))
        (.ok [])).1
      = .error (.valueError "invalid literal for int() with base 10: ab")
    ∧ PyExn.isVinFastApiError (.valueError "invalid literal for int() with base 10: ab")
        = false := by
  refine ⟨by decide, by decide, by decide, rfl⟩

end VinFast
